import Mathlib

-- Verification of the "same" check (trans/checks/same.py): a heuristic
-- classifier flagging translation pairs whose source and target are
-- suspiciously identical.
--
-- Strings are modelled as lists of characters (Str).  Character classes
-- follow the semantics of the Python 2 re module without re.UNICODE:
-- [A-Z] with IGNORECASE means ASCII letters, \d means ASCII digits,
-- \S means anything outside the ASCII whitespace class.  Case mapping
-- (str.lower, str.isupper) is modelled on ASCII letters; every string
-- appearing in the claims is ASCII apart from the copyright sign, which
-- is caseless, so the restriction is invisible to the claims.
--
-- The three format-placeholder matchers (PYTHON_PRINTF_MATCH,
-- PHP_PRINTF_MATCH, C_PRINTF_MATCH) live in trans/checks/format.py,
-- which is not part of the sources; the spec declares them out of scope
-- and treats them as pre-built matchers, so they are taken here as
-- function parameters (pySub, phpSub, cSub).

abbrev Str := List Char

/-- ASCII upper-case letter. -/
def isAsciiUpperCh (c : Char) : Bool := 'A' ≤ c && c ≤ 'Z'

/-- ASCII lower-case letter. -/
def isAsciiLowerCh (c : Char) : Bool := 'a' ≤ c && c ≤ 'z'

/-- ASCII letter: what [A-Z] matches under re.IGNORECASE. -/
def isAsciiLetter (c : Char) : Bool := isAsciiUpperCh c || isAsciiLowerCh c

/-- ASCII digit: what \d matches without re.UNICODE. -/
def isAsciiDigitCh (c : Char) : Bool := '0' ≤ c && c ≤ '9'

/-- Character class [A-Z0-9] under IGNORECASE. -/
def isAlnumCh (c : Char) : Bool := isAsciiLetter c || isAsciiDigitCh c

/-- Character class [A-Z0-9-] under IGNORECASE. -/
def isAlnumHyphen (c : Char) : Bool := isAlnumCh c || c = '-'

/-- Character class [A-Za-z0-9_-] of HASH_RE. -/
def isHashWordChar (c : Char) : Bool := isAlnumCh c || c = '_' || c = '-'

/-- Python regex whitespace \s (ASCII): what \S excludes. -/
def isPySpace (c : Char) : Bool :=
  c = ' ' || c = '\t' || c = '\n' || c = '\r' || c = '\x0b' || c = '\x0c'

/-- ASCII model of Python str.lower applied to one character. -/
def pyLower (c : Char) : Char :=
  if isAsciiUpperCh c then Char.ofNat (c.toNat + 32) else c

/-- Python source.lower(). -/
def lowerStr (l : Str) : Str := l.map pyLower

/-- Python substring membership: needle in haystack. -/
def pyIn (needle : Str) : Str → Bool
  | [] => needle.isEmpty
  | c :: t => needle.isPrefixOf (c :: t) || pyIn needle t

/-- Python str.strip(chars): remove characters of the set from both ends. -/
def pyStrip (chars : Str) (l : Str) : Str :=
  ((l.dropWhile (fun c => chars.contains c)).reverse.dropWhile
    (fun c => chars.contains c)).reverse

/-- ASCII model of Python str.isupper(): at least one cased character and
no lower-case character. -/
def pyIsupper (l : Str) : Bool :=
  l.any isAsciiLetter && l.all (fun c => !(isAsciiLowerCh c))

/-- One step of Python str.replace, with fuel bounded by the length of the
string: replace every non-overlapping occurrence of pat, left to right. -/
def replaceAllF (pat rep : Str) : Nat → Str → Str
  | 0, l => l
  | _ + 1, [] => []
  | fuel + 1, c :: t =>
    if pat.isPrefixOf (c :: t) then
      rep ++ replaceAllF pat rep fuel ((c :: t).drop pat.length)
    else
      c :: replaceAllF pat rep fuel t

/-- Python str.replace(pat, rep) for a non-empty pattern. -/
def pyReplace (pat rep l : Str) : Str := replaceAllF pat rep l.length l

/-- The chained HTML-entity replacements of strip_string, in source order. -/
def entitySub (l : Str) : Str :=
  pyReplace "&rdquo;".toList "\"".toList
    (pyReplace "&ldquo;".toList "\"".toList
      (pyReplace "&rsaquo;".toList "\"".toList
        (pyReplace "&nbsp;".toList " ".toList l)))

/-- HASH_RE.sub with fuel: every # starts a match greedily consuming the
following run of word characters. -/
def hashSubF : Nat → Str → Str
  | 0, l => l
  | _ + 1, [] => []
  | fuel + 1, c :: t =>
    if c = '#' then hashSubF fuel (t.dropWhile isHashWordChar)
    else c :: hashSubF fuel t

/-- HASH_RE.sub('', l) for HASH_RE = #[A-Za-z0-9_-]* . -/
def HASH_RE_sub (l : Str) : Str := hashSubF l.length l

/-- One iteration of the group ([A-Z0-9](?:[A-Z0-9-]{0,61}[A-Z0-9])?\.)
at the head of l.  The label characters exclude the dot, so the only
candidate label is the maximal run of [A-Z0-9-]; the iteration succeeds
exactly when that run has length 1..63, starts and ends alphanumeric, and
is followed by a literal dot.  Returns the number of consumed characters
(run plus dot). -/
def labelStep (l : Str) : Option Nat :=
  let run := l.takeWhile isAlnumHyphen
  let m := run.length
  if 1 ≤ m && m ≤ 63 &&
      (match run.head? with | some c => isAlnumCh c | none => false) &&
      (match run.getLast? with | some c => isAlnumCh c | none => false) &&
      l[m]? == some '.' then
    some (m + 1)
  else
    none

/-- Cumulative offsets after 1, 2, ... greedy iterations of label-dot. -/
def labelChainF : Nat → Str → List Nat
  | 0, _ => []
  | fuel + 1, l =>
    match labelStep l with
    | none => []
    | some n => n :: (labelChainF fuel (l.drop n)).map (fun k => n + k)

/-- Extent of the TLD alternation ([A-Z]{2,6}\.?|[A-Z0-9-]{2,}\.?) at the
head of l, following the backtracking order of the re module: the first
alternative wins whenever at least two letters are available (greedily
taking at most six), otherwise the second takes the whole alphanumeric-
hyphen run; each then greedily takes one optional trailing dot. -/
def tldLen (l : Str) : Option Nat :=
  let letters := (l.takeWhile isAsciiLetter).length
  if 2 ≤ letters then
    let j := min letters 6
    some (j + (if l[j]? == some '.' then 1 else 0))
  else
    let m := (l.takeWhile isAlnumHyphen).length
    if 2 ≤ m then some (m + (if l[m]? == some '.' then 1 else 0))
    else none

/-- Length of the DOMAIN_RE match starting exactly at the head of l, if
any: greedily take as many label-dot iterations as possible, then
backtrack to the largest iteration count whose remainder carries a TLD. -/
def domainMatchAt (l : Str) : Option Nat :=
  (labelChainF l.length l).reverse.findSome?
    (fun q => (tldLen (l.drop q)).map (fun j => q + j))

/-- DOMAIN_RE.sub scan with fuel: leftmost match, remove it, continue
after its end. -/
def domainSubF : Nat → Str → Str
  | 0, l => l
  | _ + 1, [] => []
  | fuel + 1, c :: t =>
    match domainMatchAt (c :: t) with
    | some n => domainSubF fuel ((c :: t).drop n)
    | none => c :: domainSubF fuel t

/-- DOMAIN_RE.sub('', l): strip bare domain names anywhere in the string. -/
def DOMAIN_RE_sub (l : Str) : Str := domainSubF l.length l

/-- Full-string match of one label [A-Z0-9](?:[A-Z0-9-]{0,61}[A-Z0-9])? . -/
def labelFull (l : Str) : Bool :=
  1 ≤ l.length && l.length ≤ 63 && l.all isAlnumHyphen &&
  (match l.head? with | some c => isAlnumCh c | none => false) &&
  (match l.getLast? with | some c => isAlnumCh c | none => false)

/-- Full-string match of the TLD alternation (existential semantics). -/
def tldFull (l : Str) : Bool :=
  let core := if l.getLast? == some '.' then l.dropLast else l
  (2 ≤ core.length && core.length ≤ 6 && core.all isAsciiLetter) ||
  (2 ≤ core.length && core.all isAlnumHyphen)

/-- Full-string match of the domain part ((label\.)+ TLD) of URL_RE,
with fuel (each recursion consumes at least a label and a dot). -/
def domFullF : Nat → Str → Bool
  | 0, _ => false
  | fuel + 1, l =>
    (List.range l.length).any (fun i =>
      labelFull (l.take i) && l[i]? == some '.' &&
      (tldFull (l.drop (i + 1)) || domFullF fuel (l.drop (i + 1))))

/-- Whether l entirely matches the dotted-hostname alternative of URL_RE. -/
def domFull (l : Str) : Bool := domFullF l.length l

/-- Full-string match of \d{1,3}\.\d{1,3}\.\d{1,3}\.\d{1,3} . -/
def ipv4Full (l : Str) : Bool :=
  let parts := l.splitOn '.'
  parts.length == 4 &&
  parts.all (fun p => 1 ≤ p.length && p.length ≤ 3 && p.all isAsciiDigitCh)

/-- Full-string match of the path part (?:/?|[/?]\S+) of URL_RE. -/
def pathOK (p : Str) : Bool :=
  p == [] || p == ['/'] ||
  (match p with
   | c :: rest => (c = '/' || c = '?') && 1 ≤ rest.length &&
       rest.all (fun d => !(isPySpace d))
   | [] => false)

/-- Full-string match of the port-and-path tail (?::\d+)?(?:/?|[/?]\S+) . -/
def portPath (t : Str) : Bool :=
  pathOK t ||
  (match t with
   | ':' :: u =>
     (List.range (u.length + 1)).any (fun i =>
       1 ≤ i && (u.take i).all isAsciiDigitCh && pathOK (u.drop i))
   | _ => false)

/-- Strip the scheme prefix (?:http|ftp)s?:// of URL_RE, case-insensitively. -/
def schemeRest (l : Str) : Option Str :=
  let low := lowerStr l
  if "http://".toList.isPrefixOf low then some (l.drop 7)
  else if "https://".toList.isPrefixOf low then some (l.drop 8)
  else if "ftp://".toList.isPrefixOf low then some (l.drop 6)
  else if "ftps://".toList.isPrefixOf low then some (l.drop 7)
  else none

/-- Host alternation of URL_RE: dotted hostname, localhost, or IPv4. -/
def hostOK (h : Str) : Bool :=
  domFull h || lowerStr h == "localhost".toList || ipv4Full h

/-- Whether the whole string matches URL_RE (which is anchored ^...$). -/
def urlFull (l : Str) : Bool :=
  match schemeRest l with
  | none => false
  | some rest =>
    (List.range (rest.length + 1)).any (fun i =>
      hostOK (rest.take i) && portPath (rest.drop i))

/-- URL_RE.sub('', l).  URL_RE is anchored at both ends, so a substitution
happens only when the entire string matches; the dollar anchor also
matches just before one final newline, in which case that newline is all
that survives. -/
def URL_RE_sub (l : Str) : Str :=
  if urlFull l then []
  else if l.getLast? == some '\n' && urlFull l.dropLast then ['\n']
  else l

/-- Modelled from the spec: the email matcher is Django's email_re, an
external collaborator; spec section 4.1 step 2 says to remove all
substrings matching a standard email-address grammar.  Local-part
characters of the classic grammar. -/
def emailLocalChar (c : Char) : Bool :=
  isAlnumCh c || c = '.' || c = '_' || c = '%' || c = '+' || c = '-'

/-- Modelled from the spec: extent of a standard email match
local@(label.)+tld starting at the head of l, if any. -/
def emailMatchAt (l : Str) : Option Nat :=
  let m := (l.takeWhile emailLocalChar).length
  if 1 ≤ m && l[m]? == some '@' then
    let rest := l.drop (m + 1)
    match (labelChainF rest.length rest).reverse.findSome?
        (fun q =>
          let letters := ((rest.drop q).takeWhile isAsciiLetter).length
          if 2 ≤ letters then some (q + letters) else none) with
    | some d => some (m + 1 + d)
    | none => none
  else
    none

/-- Modelled from the spec: scan removing every email match, with fuel. -/
def emailSubF : Nat → Str → Str
  | 0, l => l
  | _ + 1, [] => []
  | fuel + 1, c :: t =>
    match emailMatchAt (c :: t) with
    | some n => emailSubF fuel ((c :: t).drop n)
    | none => c :: emailSubF fuel t

/-- Modelled from the spec: email_re.sub('', l), removing every substring
that matches a standard email-address grammar. -/
def email_re_sub (l : Str) : Str := emailSubF l.length l

/-- The character set of the final boundary trim of strip_string. -/
def TRIM_CHARS : Str :=
  " ,./<>?;\x27\\:\"|[]\x7b\x7d\x60~!@#$%^&*()-=_+0123456789\n\r".toList

/-- The character set of the numeric special case of should_ignore. -/
def NUM_STRIP_CHARS : Str := "0123456789:/,.".toList

/-- SAME_BLACKLIST: words usually not translated, kept verbatim. -/
def SAME_BLACKLIST : List Str := [
  "accelerator", "action", "actions", "active", "alarm", "amazon", "atom",
  "audio", "auto", "avatar", "bitcoin", "blog", "bluetooth", "bzip2",
  "chat", "cm", "copyright", "csv", "cvs", "data", "dbm", "description",
  "dm", "download", "dpi", "dummy", "e-mail", "eib", "email", "esperanto",
  "expert", "export", "fax", "feeds", "filter", "firmware", "flash",
  "flattr", "fulltext", "gammu", "general", "gettext", "google", "gib",
  "git", "gtk", "gzip", "headset", "hardware", "help", "horizontal", "id",
  "in", "irc", "irda", "imei", "import", "info", "information", "isbn",
  "jabber", "kib", "km", "latex", "layout", "linux", "lithium ion",
  "lithium polymer", "ltr", "ma", "mah", "mailbox", "maildir", "media",
  "model", "monitor", "motif", "mib", "mm", "mv", "n/a", "name", "nimh",
  "normal", "null", "ok", "online", "open document", "operator",
  "orientation", "pager", "paypal", "pdf", "personal", "pib", "port",
  "position", "python-gammu", "program", "proxy", "pt", "px", "rebase",
  "reset", "roadmap", "rss", "rtl", "script", "server", "sim", "smsc",
  "software", "sql", "standard", "start", "status", "stop", "style",
  "syndication", "system", "text", "tib", "ukolovnik", "unicode",
  "vcalendar", "vcard", "version", "vertical", "video", "wammu", "web",
  "weblate", "wiki", "windows", "www", "xml", "zip",
  "january", "february", "march", "april", "may", "june", "july",
  "august", "september", "october", "november", "december",
  "jan", "feb", "mar", "apr", "jun", "jul", "aug", "sep", "oct", "nov",
  "dec"].map String.toList

/-- SameCheck.strip_format: select exactly one placeholder matcher by
flag priority (python-format, then php-format, then c-format) and remove
all its matches; with none of the flags, return the message unchanged.
The matchers themselves are external parameters (see header). -/
def strip_format (pySub phpSub cSub : Str → Str) (msg : Str)
    (flags : List String) : Str :=
  if flags.contains "python-format" then pySub msg
  else if flags.contains "php-format" then phpSub msg
  else if flags.contains "c-format" then cSub msg
  else msg

/-- SameCheck.strip_string: format stripping, email removal, URL removal,
hash removal, bare-domain removal, entity normalization, boundary trim. -/
def strip_string (pySub phpSub cSub : Str → Str) (msg : Str)
    (flags : List String) : Str :=
  let s1 := strip_format pySub phpSub cSub msg flags
  let s2 := email_re_sub s1
  let s3 := URL_RE_sub s2
  let s4 := HASH_RE_sub s3
  let s5 := DOMAIN_RE_sub s4
  let s6 := entitySub s5
  pyStrip TRIM_CHARS s6

/-- Modelled from the spec: the translation unit is an opaque handle of
which the core uses two capabilities, flags() and a language-membership
test (trans/checks/base.py is not part of the sources). -/
structure TransUnit where
  flags : List String
  language : String

/-- Modelled from the spec: TargetCheck.is_language as membership of the
unit language code in the given code set. -/
def is_language (u : TransUnit) (codes : List String) : Bool :=
  codes.contains u.language

/-- SameCheck.should_ignore.  The cache slot (get_cache/set_cache of
trans/checks/base.py, modelled from the spec as an optional boolean cell)
is passed in and the updated cell is returned alongside the result. -/
def should_ignore (pySub phpSub cSub : Str → Str) (source : Str)
    (u : TransUnit) (cache_slot : Option Bool) : Bool × Option Bool :=
  match cache_slot with
  | some r => (r, some r)
  | none =>
    let lower_source := lowerStr source
    let result :=
      if (pyStrip NUM_STRIP_CHARS source).length ≤ 1
          ∨ pyIn "(c) copyright".toList lower_source
          ∨ pyIn "©".toList source then
        true
      else
        let stripped := strip_string pySub phpSub cSub lower_source u.flags
        if stripped == [] then true
        else if SAME_BLACKLIST.contains stripped then true
        else false
    (result, some result)

/-- SameCheck.check_single: the top-level predicate, returning the flag
together with the cache cell as left by the call. -/
def check_single (pySub phpSub cSub : Str → Str) (source target : Str)
    (u : TransUnit) (cache_slot : Option Bool) : Bool × Option Bool :=
  if is_language u ["en"] then (false, cache_slot)
  else if source.length ≤ 1 ∧ target.length ≤ 1 then (false, cache_slot)
  else if pyIsupper source ∧ pyIsupper target then (false, cache_slot)
  else
    let p := should_ignore pySub phpSub cSub source u cache_slot
    if p.1 then (false, p.2) else (source == target, p.2)


-- Helper lemmas shared by several claim proofs.

/-- The special-case branch of should_ignore: with an empty cache slot,
any of the three special conditions forces the result true. -/
theorem should_ignore_special_true (pySub phpSub cSub : Str → Str)
    (source : Str) (u : TransUnit)
    (h : (pyStrip NUM_STRIP_CHARS source).length ≤ 1
      ∨ pyIn "(c) copyright".toList (lowerStr source) = true
      ∨ pyIn "©".toList source = true) :
    (should_ignore pySub phpSub cSub source u none).1 = true := by
  rcases h with h | h | h
  · simp [should_ignore, h]
  · simp [should_ignore]
    refine Or.inl (Or.inr (Or.inl ?_))
    simpa using h
  · simp [should_ignore]
    refine Or.inl (Or.inr (Or.inr ?_))
    simpa using h

/-- Running should_ignore again on the cache cell it produced gives the
same result-and-cell pair. -/
theorem should_ignore_rerun_eq (pySub phpSub cSub : Str → Str)
    (source : Str) (u : TransUnit) (slot : Option Bool) :
    should_ignore pySub phpSub cSub source u
      ((should_ignore pySub phpSub cSub source u slot).2) =
    should_ignore pySub phpSub cSub source u slot := by
  cases slot <;> rfl

/-- Claim C4 (confirmed): if stripping the characters 0123456789:/,. from
both ends of the original-case source leaves at most one character,
should_ignore returns true on an empty cache slot, for every unit and
every (format-matcher) table. -/
theorem should_ignore_numeric_strip (pySub phpSub cSub : Str → Str)
    (source : Str) (u : TransUnit)
    (h : (pyStrip NUM_STRIP_CHARS source).length ≤ 1) :
    (should_ignore pySub phpSub cSub source u none).1 = true :=
  should_ignore_special_true pySub phpSub cSub source u (Or.inl h)

/-- Witness for C4 at the concrete ratio source 1:4. -/
theorem should_ignore_numeric_strip_witness :
    (pyStrip NUM_STRIP_CHARS "1:4".toList).length ≤ 1 ∧
    (should_ignore id id id "1:4".toList ⟨[], "cs"⟩ none).1 = true :=
  ⟨by decide,
   should_ignore_numeric_strip id id id "1:4".toList ⟨[], "cs"⟩ (by decide)⟩

/-- Claim C5 (confirmed): a source containing the copyright sign in its
original case, or whose lower-cased form contains the substring
(c) copyright, is ignored on an empty cache slot, for every unit. -/
theorem should_ignore_copyright (pySub phpSub cSub : Str → Str)
    (source : Str) (u : TransUnit)
    (h : pyIn "©".toList source = true
      ∨ pyIn "(c) copyright".toList (lowerStr source) = true) :
    (should_ignore pySub phpSub cSub source u none).1 = true :=
  should_ignore_special_true pySub phpSub cSub source u
    (h.elim (fun hc => Or.inr (Or.inr hc)) (fun hc => Or.inr (Or.inl hc)))

/-- Witness for C5 at a concrete copyright notice. -/
theorem should_ignore_copyright_witness :
    pyIn "©".toList "© 2013 Acme".toList = true ∧
    (should_ignore id id id "© 2013 Acme".toList ⟨[], "cs"⟩ none).1 = true :=
  ⟨by decide,
   should_ignore_copyright id id id "© 2013 Acme".toList ⟨[], "cs"⟩
     (Or.inl (by decide))⟩

/-- Claim C6 (confirmed): format stripping selects exactly one matcher by
fixed priority: python-format first, then php-format, then c-format, and
returns the message unchanged when none of the three flags is present. -/
theorem strip_format_priority (pySub phpSub cSub : Str → Str) (msg : Str)
    (flags : List String) :
    ("python-format" ∈ flags →
      strip_format pySub phpSub cSub msg flags = pySub msg)
  ∧ ("python-format" ∉ flags → "php-format" ∈ flags →
      strip_format pySub phpSub cSub msg flags = phpSub msg)
  ∧ ("python-format" ∉ flags → "php-format" ∉ flags →
      "c-format" ∈ flags →
      strip_format pySub phpSub cSub msg flags = cSub msg)
  ∧ ("python-format" ∉ flags → "php-format" ∉ flags →
      "c-format" ∉ flags →
      strip_format pySub phpSub cSub msg flags = msg) := by
  refine ⟨fun h1 => ?_, fun h1 h2 => ?_, fun h1 h2 h3 => ?_,
    fun h1 h2 h3 => ?_⟩
  · simp [strip_format, h1]
  · simp [strip_format, h1, h2]
  · simp [strip_format, h1, h2, h3]
  · simp [strip_format, h1, h2, h3]

/-- Witness for C6: with both php-format and c-format present (and
python-format absent), the php matcher is the one applied. -/
theorem strip_format_priority_witness :
    strip_format (fun _ => "PY".toList) (fun _ => "PHP".toList)
      (fun _ => "C".toList) "x".toList ["c-format", "php-format"] =
      "PHP".toList :=
  (strip_format_priority (fun _ => "PY".toList) (fun _ => "PHP".toList)
    (fun _ => "C".toList) "x".toList ["c-format", "php-format"]).2.1
    (by decide) (by decide)

/-- Claim C1 (counterexample): the URL-removal step does not remove a URL
embedded in longer text — URL_RE is anchored at both ends — and stripping
the lowercased source "visit http://example.com today" with no format
flags does not yield the residue "visit  today". -/
theorem url_strip_substring_counterexample :
    URL_RE_sub "visit http://example.com today".toList =
      "visit http://example.com today".toList ∧
    ¬(strip_string id id id "visit http://example.com today".toList [] =
      "visit  today".toList) :=
  ⟨by decide, by decide⟩

/-- Claim C1 (amended): the URL-removal step removes the URL only when the
whole string (up to one final newline, which the dollar anchor tolerates)
matches scheme://host[:port][/path]; it never removes a proper substring.
A string that is entirely such a URL is erased, and stripping the
lowercased source "visit http://example.com today" with no format flags
yields the residue "visit http:// today" (the host is removed by the
bare-domain step, the scheme survives). -/
theorem url_strip_whole_string_only :
    (∀ s : Str, URL_RE_sub s = s ∨ URL_RE_sub s = [] ∨ URL_RE_sub s = ['\n'])
  ∧ URL_RE_sub "http://example.com".toList = []
  ∧ strip_string id id id "visit http://example.com today".toList [] =
      "visit http:// today".toList := by
  refine ⟨?_, by decide, by decide⟩
  intro s
  unfold URL_RE_sub
  split
  · exact Or.inr (Or.inl rfl)
  · split
    · exact Or.inr (Or.inr rfl)
    · exact Or.inl rfl

/-- Claim C3 (counterexample): the stripping pipeline is not idempotent:
on "1http://localhost" (no format flags) one pass trims the leading digit
and leaves "http://localhost", which a second pass erases completely,
because the anchored URL pattern now matches the whole string. -/
theorem strip_string_not_idempotent_counterexample :
    strip_string id id id "1http://localhost".toList [] =
      "http://localhost".toList ∧
    strip_string id id id
      (strip_string id id id "1http://localhost".toList []) [] = [] ∧
    ¬(strip_string id id id
        (strip_string id id id "1http://localhost".toList []) [] =
      strip_string id id id "1http://localhost".toList []) :=
  ⟨by decide, by decide, by decide⟩

/-- With no format flags, format stripping returns the message unchanged. -/
theorem strip_format_no_flags (pySub phpSub cSub : Str → Str) (msg : Str) :
    strip_format pySub phpSub cSub msg [] = msg := rfl

/-- The stripping pipeline maps the empty string to itself (no format
flags, any format matchers). -/
theorem strip_string_nil (pySub phpSub cSub : Str → Str) :
    strip_string pySub phpSub cSub [] [] = [] := by
  show pyStrip TRIM_CHARS (entitySub (DOMAIN_RE_sub (HASH_RE_sub
    (URL_RE_sub (email_re_sub (strip_format pySub phpSub cSub [] [])))))) = []
  rw [strip_format_no_flags pySub phpSub cSub []]
  rfl

/-- Claim C3 (amended): stripping is not idempotent on every string (see
the counterexample); it is idempotent at least whenever the first pass
already reduces the string to the empty residue, for any format matchers
and no format flags. -/
theorem strip_string_idempotent_on_empty_residue
    (pySub phpSub cSub : Str → Str) (msg : Str)
    (h : strip_string pySub phpSub cSub msg [] = []) :
    strip_string pySub phpSub cSub
      (strip_string pySub phpSub cSub msg []) [] =
    strip_string pySub phpSub cSub msg [] := by
  rw [h]
  exact strip_string_nil pySub phpSub cSub

/-- Witness for the amended C3 at a concrete input whose residue is empty. -/
theorem strip_string_idempotent_on_empty_residue_witness :
    strip_string id id id "http://localhost".toList [] = [] ∧
    strip_string id id id
      (strip_string id id id "http://localhost".toList []) [] =
    strip_string id id id "http://localhost".toList [] :=
  ⟨by decide,
   strip_string_idempotent_on_empty_residue id id id
     "http://localhost".toList (by decide)⟩

/-- Claim C7 (confirmed): should_ignore is memoizing: a populated cache
cell is returned as is (same boolean, cell untouched), and after every
call the cell holds exactly the boolean that was returned (on an empty
cell, the freshly computed result is stored). -/
theorem should_ignore_cache_semantics (pySub phpSub cSub : Str → Str)
    (source : Str) (u : TransUnit) :
    (∀ b : Bool,
      should_ignore pySub phpSub cSub source u (some b) = (b, some b))
  ∧ (∀ slot : Option Bool,
      (should_ignore pySub phpSub cSub source u slot).2 =
        some ((should_ignore pySub phpSub cSub source u slot).1)) := by
  constructor
  · intro b
    rfl
  · intro slot
    cases slot <;> rfl

/-- Claim C2 (confirmed): when none of the four short-circuits applies
(English unit, both strings of length at most one, both strings entirely
upper-case, should_ignore true), check_single returns exactly the
case-sensitive equality of the untouched strings; whenever any
short-circuit applies it returns false. -/
theorem check_single_shortcircuits_and_equality
    (pySub phpSub cSub : Str → Str) (source target : Str) (u : TransUnit)
    (slot : Option Bool) :
    ((is_language u ["en"] = false) →
      ¬(source.length ≤ 1 ∧ target.length ≤ 1) →
      ¬(pyIsupper source = true ∧ pyIsupper target = true) →
      (should_ignore pySub phpSub cSub source u slot).1 = false →
      ((check_single pySub phpSub cSub source target u slot).1 = true ↔
        source = target))
  ∧ ((is_language u ["en"] = true
      ∨ (source.length ≤ 1 ∧ target.length ≤ 1)
      ∨ (pyIsupper source = true ∧ pyIsupper target = true)
      ∨ (should_ignore pySub phpSub cSub source u slot).1 = true) →
      (check_single pySub phpSub cSub source target u slot).1 = false) := by
  constructor
  · intro h1 h2 h3 h4
    simp [check_single, h1, h2, h3, h4]
  · intro h
    by_cases hA : is_language u ["en"] = true
    · simp [check_single, hA]
    · by_cases hB : source.length ≤ 1 ∧ target.length ≤ 1
      · simp [check_single, hB]
      · by_cases hC : pyIsupper source = true ∧ pyIsupper target = true
        · simp [check_single, hC]
        · have hD : (should_ignore pySub phpSub cSub source u slot).1 = true := by
            rcases h with h | h | h | h
            · exact absurd h hA
            · exact absurd h hB
            · exact absurd h hC
            · exact h
          simp [check_single, hA, hB, hC, hD]

/-- Witness for C2: no short-circuit applies to the pair (hello, hello)
in a French unit with an empty cache, and the equal strings are flagged. -/
theorem check_single_shortcircuits_and_equality_witness :
    (check_single id id id "hello".toList "hello".toList ⟨[], "fr"⟩
      none).1 = true :=
  ((check_single_shortcircuits_and_equality id id id "hello".toList
      "hello".toList ⟨[], "fr"⟩ none).1
    (by decide) (by decide) (by decide) (by decide)).mpr rfl

/-- Claim C8 (confirmed): the embedding is a pure function, so equal
inputs (cache state included) give equal outputs; moreover rerunning
should_ignore or check_single on the cache cell left by a first run with
an empty cell reproduces exactly the first result, so the stored value
always agrees with recomputation. -/
theorem should_ignore_check_single_recompute_consistent
    (pySub phpSub cSub : Str → Str) (source target : Str) (u : TransUnit) :
    ((should_ignore pySub phpSub cSub source u
        ((should_ignore pySub phpSub cSub source u none).2)).1 =
      (should_ignore pySub phpSub cSub source u none).1)
  ∧ ((check_single pySub phpSub cSub source target u
        ((check_single pySub phpSub cSub source target u none).2)).1 =
      (check_single pySub phpSub cSub source target u none).1) := by
  constructor
  · exact congrArg Prod.fst
      (should_ignore_rerun_eq pySub phpSub cSub source u none)
  · by_cases hA : is_language u ["en"] = true
    · simp [check_single, hA]
    · by_cases hB : source.length ≤ 1 ∧ target.length ≤ 1
      · simp [check_single, hA, hB]
      · by_cases hC : pyIsupper source = true ∧ pyIsupper target = true
        · simp [check_single, hA, hB, hC]
        · have hs := should_ignore_rerun_eq pySub phpSub cSub source u none
          by_cases hD : (should_ignore pySub phpSub cSub source u none).1 = true
          · simp [check_single, hA, hB, hC, hD, hs]
          · simp [check_single, hA, hB, hC, hD, hs]

/-- Claim C9 (confirmed): the upper-case test holds exactly when the
string has at least one cased (ASCII letter) character and none of its
cased characters is lower-case; digits, spaces and punctuation do not
block it, and strings without cased characters never pass it.  On the
pair (ABC 123, OK!) check_single short-circuits to false before ever
touching the cache cell. -/
theorem pyIsupper_characterization :
    (∀ l : Str, pyIsupper l = true ↔
      ((∃ c ∈ l, isAsciiLetter c = true) ∧
        ∀ c ∈ l, isAsciiLetter c = true → isAsciiLowerCh c = false))
  ∧ pyIsupper "ABC 123".toList = true
  ∧ pyIsupper "OK!".toList = true
  ∧ pyIsupper "123".toList = false
  ∧ check_single id id id "ABC 123".toList "OK!".toList ⟨[], "fr"⟩ none =
      (false, none) := by
  refine ⟨?_, by decide, by decide, by decide, by decide⟩
  intro l
  unfold pyIsupper
  rw [Bool.and_eq_true, List.any_eq_true, List.all_eq_true]
  constructor
  · rintro ⟨⟨c, hc, hl⟩, hall⟩
    refine ⟨⟨c, hc, hl⟩, fun d hd _ => ?_⟩
    have := hall d hd
    simpa using this
  · rintro ⟨⟨c, hc, hl⟩, hall⟩
    refine ⟨⟨c, hc, hl⟩, fun d hd => ?_⟩
    by_cases hlet : isAsciiLetter d = true
    · simpa using hall d hd hlet
    · have hlow : isAsciiLowerCh d = false := by
        cases hcase : isAsciiLowerCh d
        · rfl
        · exact absurd (by simp [isAsciiLetter, hcase]) hlet
      simpa using hlow

/-- Witness for C9: a concrete all-upper string passes the test through
the characterization. -/
theorem pyIsupper_characterization_witness : pyIsupper "AB".toList = true :=
  (pyIsupper_characterization.1 "AB".toList).mpr ⟨by decide, by decide⟩

/-- Claim C10 (confirmed): with an empty cache cell, the empty source is
never flagged, whatever the target, the unit and the format matchers:
either the target is also short, or the numeric-strip special case of
should_ignore fires on the empty string. -/
theorem check_single_empty_source_false
    (pySub phpSub cSub : Str → Str) (target : Str) (u : TransUnit) :
    (check_single pySub phpSub cSub [] target u none).1 = false := by
  by_cases hA : is_language u ["en"] = true
  · simp [check_single, hA]
  · by_cases hB : target.length ≤ 1
    · simp [check_single, hA, hB]
    · have hso : (should_ignore pySub phpSub cSub [] u none).1 = true :=
        should_ignore_special_true pySub phpSub cSub [] u
          (Or.inl (by decide))
      have hC : ¬(pyIsupper ([] : Str) = true ∧ pyIsupper target = true) := by
        simp [pyIsupper]
      simp [check_single, hA, hB, hC, hso]
